import Mathlib

/-!
Verification of the OTP issuance/verification engine of the testZitadel
repository: the in-memory `OTPStore` (src/internal/service/otp.go) and the
`OTPVerificationStore` (verification-flag store).

Modelling conventions:
* A Go `map[string]*T` under its mutex becomes a function `String → Option T`.
* `time.Time` becomes `Nat` (seconds); `time.Now().After(e)` is the strict
  comparison `now > e`; `5 * time.Minute` is `300`, `10 * time.Minute` is `600`.
* Go `int` becomes `Int` (the `Attempts` counter).
* `crypto/rand` code generation is modelled by passing the freshly generated
  code as an explicit argument to `generateOTP` (a random oracle); the store
  logic never inspects the code beyond string equality.
* Each mutating operation returns the store after the call; `fmt.Errorf`
  outcomes of `VerifyOTP` become a typed error inductive.
-/

namespace OTPService

/-- `OTPData` from src/internal/service/otp.go: the record stored per phone. -/
structure OTPData where
  code : String
  expiresAt : Nat
  attempts : Int
  deriving Repr, DecidableEq

/-- The `codes` map of `OTPStore`, keyed by phone number. -/
abbrev OTPStore := String → Option OTPData

/-- `NewOTPStore` starts from an empty map. -/
def emptyOTPStore : OTPStore := fun _ => none

/-- Go `delete(m, phone)` on a phone-keyed map. -/
def mapDelete {α : Type} (s : String → Option α) (phone : String) :
    String → Option α :=
  fun p => if p = phone then none else s p

/-- Go `m[phone] = v` on a phone-keyed map. -/
def mapInsert {α : Type} (s : String → Option α) (phone : String) (v : α) :
    String → Option α :=
  fun p => if p = phone then some v else s p

/-- The four `fmt.Errorf` outcomes of `VerifyOTP`. -/
inductive OtpError where
  | notFound
  | expired
  | attemptsExceeded
  | mismatch
  deriving Repr, DecidableEq

instance : DecidableEq (Except OtpError Unit) := fun a b =>
  match a, b with
  | .ok (), .ok () => isTrue rfl
  | .error e, .error f =>
    if h : e = f then isTrue (by rw [h]) else isFalse (by intro hc; cases hc; exact h rfl)
  | .ok _, .error _ => isFalse (by intro hc; cases hc)
  | .error _, .ok _ => isFalse (by intro hc; cases hc)

/-- The error strings produced by `VerifyOTP` in src/internal/service/otp.go. -/
def otpErrorMessage : OtpError → String
  | .notFound => "OTP code not found for this phone number"
  | .expired => "OTP code has expired"
  | .attemptsExceeded => "too many failed attempts"
  | .mismatch => "invalid OTP code"

/-- `GenerateOTP`: stores a fresh record for `phone` with the newly generated
`code`, `ExpiresAt = now + 5 minutes`, `Attempts = 0`, overwriting any
previous record. Returns the updated store (the Go method also returns the
code, which is the `code` argument here, and a nil error). -/
def generateOTP (s : OTPStore) (now : Nat) (phone code : String) : OTPStore :=
  mapInsert s phone { code := code, expiresAt := now + 300, attempts := 0 }

/-- `VerifyOTP`: looks up the record for `phone` and checks, in order:
existence, expiry (`now > ExpiresAt`, deleting on failure), attempt limit
(`Attempts >= 3`, deleting on failure), code equality (incrementing
`Attempts` and retaining the record on mismatch); on success deletes the
record and returns ok. The pair is (returned error, store after the call). -/
def verifyOTP (s : OTPStore) (now : Nat) (phone code : String) :
    Except OtpError Unit × OTPStore :=
  match s phone with
  | none => (Except.error OtpError.notFound, s)
  | some otpData =>
    if now > otpData.expiresAt then
      (Except.error OtpError.expired, mapDelete s phone)
    else if otpData.attempts ≥ 3 then
      (Except.error OtpError.attemptsExceeded, mapDelete s phone)
    else if otpData.code ≠ code then
      (Except.error OtpError.mismatch,
        mapInsert s phone { otpData with attempts := otpData.attempts + 1 })
    else
      (Except.ok (), mapDelete s phone)

/-- `DeleteOTP`: unconditional removal of the record for `phone`. -/
def deleteOTP (s : OTPStore) (phone : String) : OTPStore :=
  mapDelete s phone

/-- One pass of the `cleanupExpired` sweep at time `now`: every record whose
`ExpiresAt` has passed (`now > ExpiresAt`) is deleted. -/
def cleanupPass (s : OTPStore) (now : Nat) : OTPStore :=
  fun p =>
    match s p with
    | none => none
    | some d => if now > d.expiresAt then none else some d

/-- A sequence of `VerifyOTP` calls for the same phone and submitted code, one
per listed call time, executed in the serialization order imposed by the
store's write lock. Returns the list of outcomes and the final store. -/
def runVerifies (s : OTPStore) (phone code : String) :
    List Nat → List (Except OtpError Unit) × OTPStore
  | [] => ([], s)
  | now :: rest =>
    let r := verifyOTP s now phone code
    let rr := runVerifies r.2 phone code rest
    (r.1 :: rr.1, rr.2)

/-- The public mutating operations of `OTPStore`, for reachability statements. -/
inductive OTPOp where
  | generate (now : Nat) (phone code : String)
  | verify (now : Nat) (phone code : String)
  | delete (phone : String)

/-- Effect of one public operation on the `codes` map. -/
def applyOp (s : OTPStore) : OTPOp → OTPStore
  | .generate now phone code => generateOTP s now phone code
  | .verify now phone code => (verifyOTP s now phone code).2
  | .delete phone => deleteOTP s phone

/-- Effect of a call sequence on the `codes` map. -/
def applyOps (s : OTPStore) (ops : List OTPOp) : OTPStore :=
  ops.foldl applyOp s

/-- Every stored record has its attempts counter between 0 and 3. -/
def AttemptsInRange (s : OTPStore) : Prop :=
  ∀ p d, s p = some d → 0 ≤ d.attempts ∧ d.attempts ≤ 3

end OTPService

namespace VerificationFlag

/-- `OTPVerification`: the flag record of `OTPVerificationStore`. -/
structure OTPVerification where
  phone : String
  verified : Bool
  verifiedAt : Nat
  expiresAt : Nat
  deriving Repr, DecidableEq

/-- The `verifications` map of `OTPVerificationStore`, keyed by phone. -/
abbrev VerificationStore := String → Option OTPVerification

/-- `NewOTPVerificationStore` starts from an empty map. -/
def emptyVerificationStore : VerificationStore := fun _ => none

/-- `MarkAsVerified`: unconditionally stores a flag with `Verified = true`,
`VerifiedAt = now`, `ExpiresAt = now + 10 minutes`. -/
def markAsVerified (s : VerificationStore) (now : Nat) (phone : String) :
    VerificationStore :=
  OTPService.mapInsert s phone
    { phone := phone, verified := true, verifiedAt := now, expiresAt := now + 600 }

/-- `IsVerified`: read-only lookup under `RLock`; false if absent, false if
expired (`now > ExpiresAt`), otherwise the stored `Verified` bit. The store
component of the pair is the store after the call (never modified). -/
def isVerified (s : VerificationStore) (now : Nat) (phone : String) :
    Bool × VerificationStore :=
  match s phone with
  | none => (false, s)
  | some verification =>
    if now > verification.expiresAt then (false, s)
    else (verification.verified, s)

/-- `ConsumeVerification`: destructive read; false if absent; if present but
expired or not verified, deletes and returns false; otherwise deletes and
returns true. -/
def consumeVerification (s : VerificationStore) (now : Nat) (phone : String) :
    Bool × VerificationStore :=
  match s phone with
  | none => (false, s)
  | some verification =>
    if now > verification.expiresAt ∨ verification.verified = false then
      (false, OTPService.mapDelete s phone)
    else
      (true, OTPService.mapDelete s phone)

end VerificationFlag

section Theorems

open OTPService VerificationFlag

/-- C1: with a live, unexpired record whose attempts counter has reached 3,
`VerifyOTP` returns the attempts-exceeded error and deletes the record,
for every submitted code (in particular the correct one): the attempt-count
check runs after the expiry check and before the code-equality check. -/
theorem verifyOTP_attemptsExceeded (s : OTPStore) (now : Nat)
    (phone code : String) (d : OTPData)
    (hrec : s phone = some d) (hexp : ¬ now > d.expiresAt)
    (hatt : d.attempts ≥ 3) :
    (verifyOTP s now phone code).1 = Except.error OtpError.attemptsExceeded
    ∧ (verifyOTP s now phone code).2 phone = none := by
  simp [verifyOTP, hrec, hexp, hatt, mapDelete]

/-- Witness for C1 at a concrete store: record with attempts = 3, the correct
code submitted before expiry, still rejected and deleted. -/
theorem verifyOTP_attemptsExceeded_witness :
    (verifyOTP
        (mapInsert emptyOTPStore "+79991234567"
          { code := "482913", expiresAt := 300, attempts := 3 })
        100 "+79991234567" "482913").1
      = Except.error OtpError.attemptsExceeded
    ∧ (verifyOTP
        (mapInsert emptyOTPStore "+79991234567"
          { code := "482913", expiresAt := 300, attempts := 3 })
        100 "+79991234567" "482913").2 "+79991234567" = none :=
  verifyOTP_attemptsExceeded _ 100 "+79991234567" "482913"
    { code := "482913", expiresAt := 300, attempts := 3 }
    (by decide) (by decide) (by decide)

/-- C2 counterexample: at a time exactly equal to `ExpiresAt` the code path
does NOT return the expired error — the expiry test is strict (`now >
ExpiresAt`), so a wrong code at `now = ExpiresAt` is compared and yields
the mismatch error. -/
theorem verifyOTP_at_exact_expiry_compares :
    (verifyOTP
        (mapInsert emptyOTPStore "+79991234567"
          { code := "482913", expiresAt := 300, attempts := 0 })
        300 "+79991234567" "000000").1
      = Except.error OtpError.mismatch := by decide

/-- C2 (amended): with a stored record, `VerifyOTP` called at a time strictly
later than `ExpiresAt` returns the expired error for every submitted code
(no code comparison) and deletes the record. -/
theorem verifyOTP_expired (s : OTPStore) (now : Nat) (phone code : String)
    (d : OTPData) (hrec : s phone = some d) (hexp : now > d.expiresAt) :
    (verifyOTP s now phone code).1 = Except.error OtpError.expired
    ∧ (verifyOTP s now phone code).2 phone = none := by
  simp [verifyOTP, hrec, hexp, mapDelete]

/-- Witness for the amended C2 at a concrete store, one tick past expiry. -/
theorem verifyOTP_expired_witness :
    (verifyOTP
        (mapInsert emptyOTPStore "+79991234567"
          { code := "482913", expiresAt := 300, attempts := 0 })
        301 "+79991234567" "482913").1
      = Except.error OtpError.expired
    ∧ (verifyOTP
        (mapInsert emptyOTPStore "+79991234567"
          { code := "482913", expiresAt := 300, attempts := 0 })
        301 "+79991234567" "482913").2 "+79991234567" = none :=
  verifyOTP_expired _ 301 "+79991234567" "482913"
    { code := "482913", expiresAt := 300, attempts := 0 }
    (by decide) (by decide)

/-- C3: a successful verify (record present, unexpired, attempts < 3, submitted
code equal to the stored code) returns ok and deletes the record, and an
immediately subsequent verify with the same code returns the not-found
error — one-time use. -/
theorem verifyOTP_success_once (s : OTPStore) (now now2 : Nat) (phone : String)
    (d : OTPData) (hrec : s phone = some d) (hexp : ¬ now > d.expiresAt)
    (hatt : d.attempts < 3) :
    (verifyOTP s now phone d.code).1 = Except.ok ()
    ∧ (verifyOTP s now phone d.code).2 phone = none
    ∧ (verifyOTP (verifyOTP s now phone d.code).2 now2 phone d.code).1
        = Except.error OtpError.notFound := by
  have hatt' : ¬ d.attempts ≥ 3 := not_le.mpr hatt
  simp [verifyOTP, hrec, hexp, hatt', mapDelete]

/-- Witness for C3 at the spec's end-to-end example input. -/
theorem verifyOTP_success_once_witness :
    (verifyOTP
        (mapInsert emptyOTPStore "+79991234567"
          { code := "482913", expiresAt := 300, attempts := 1 })
        100 "+79991234567" "482913").1 = Except.ok ()
    ∧ (verifyOTP
        (mapInsert emptyOTPStore "+79991234567"
          { code := "482913", expiresAt := 300, attempts := 1 })
        100 "+79991234567" "482913").2 "+79991234567" = none
    ∧ (verifyOTP
        (verifyOTP
          (mapInsert emptyOTPStore "+79991234567"
            { code := "482913", expiresAt := 300, attempts := 1 })
          100 "+79991234567" "482913").2 101 "+79991234567" "482913").1
        = Except.error OtpError.notFound :=
  verifyOTP_success_once _ 100 101 "+79991234567"
    { code := "482913", expiresAt := 300, attempts := 1 }
    (by decide) (by decide) (by decide)

/-- C4: a mismatched verify on a live, unexpired record with attempts < 3
returns the mismatch error and leaves the record in place with the same
code and expiry and the attempts counter incremented by exactly 1. -/
theorem verifyOTP_mismatch (s : OTPStore) (now : Nat) (phone code : String)
    (d : OTPData) (hrec : s phone = some d) (hexp : ¬ now > d.expiresAt)
    (hatt : d.attempts < 3) (hne : d.code ≠ code) :
    (verifyOTP s now phone code).1 = Except.error OtpError.mismatch
    ∧ (verifyOTP s now phone code).2 phone
        = some { code := d.code, expiresAt := d.expiresAt,
                 attempts := d.attempts + 1 } := by
  have hatt' : ¬ d.attempts ≥ 3 := not_le.mpr hatt
  simp [verifyOTP, hrec, hexp, hatt', hne, mapInsert]

/-- Witness for C4: a wrong code leaves the record with attempts bumped 0 → 1. -/
theorem verifyOTP_mismatch_witness :
    (verifyOTP
        (mapInsert emptyOTPStore "+79991234567"
          { code := "482913", expiresAt := 300, attempts := 0 })
        100 "+79991234567" "000000").1 = Except.error OtpError.mismatch
    ∧ (verifyOTP
        (mapInsert emptyOTPStore "+79991234567"
          { code := "482913", expiresAt := 300, attempts := 0 })
        100 "+79991234567" "000000").2 "+79991234567"
        = some { code := "482913", expiresAt := 300, attempts := 1 } :=
  verifyOTP_mismatch _ 100 "+79991234567" "000000"
    { code := "482913", expiresAt := 300, attempts := 0 }
    (by decide) (by decide) (by decide) (by decide)

/-- C5: `MarkAsVerified` then `ConsumeVerification` returns true exactly once
(the flag is deleted, so a second immediate consume returns false); in
general consume returns false when the flag is absent, and deletes while
returning false when present but expired or unverified, and deletes while
returning true when present, unexpired and verified. -/
theorem consumeVerification_spec :
    (∀ (s : VerificationStore) (now t1 t2 : Nat) (phone : String),
      ¬ t1 > now + 600 →
      (consumeVerification (markAsVerified s now phone) t1 phone).1 = true
      ∧ (consumeVerification (markAsVerified s now phone) t1 phone).2 phone = none
      ∧ (consumeVerification
          (consumeVerification (markAsVerified s now phone) t1 phone).2 t2 phone).1
          = false)
    ∧ (∀ (s : VerificationStore) (now : Nat) (phone : String),
      s phone = none →
      (consumeVerification s now phone).1 = false
      ∧ (consumeVerification s now phone).2 = s)
    ∧ (∀ (s : VerificationStore) (now : Nat) (phone : String) (v : OTPVerification),
      s phone = some v → (now > v.expiresAt ∨ v.verified = false) →
      (consumeVerification s now phone).1 = false
      ∧ (consumeVerification s now phone).2 phone = none)
    ∧ (∀ (s : VerificationStore) (now : Nat) (phone : String) (v : OTPVerification),
      s phone = some v → ¬ now > v.expiresAt → v.verified = true →
      (consumeVerification s now phone).1 = true
      ∧ (consumeVerification s now phone).2 phone = none) := by
  refine ⟨?_, ?_, ?_, ?_⟩
  · intro s now t1 t2 phone h1
    refine ⟨?_, ?_, ?_⟩
    · simp [consumeVerification, markAsVerified, mapInsert, h1]
    · simp [consumeVerification, markAsVerified, mapInsert, mapDelete, h1]
    · simp [consumeVerification, markAsVerified, mapInsert, mapDelete, h1]
  · intro s now phone h
    simp [consumeVerification, h]
  · intro s now phone v hv hbad
    refine ⟨?_, ?_⟩
    · simp [consumeVerification, hv, hbad]
    · simp [consumeVerification, hv, hbad, mapDelete]
  · intro s now phone v hv hexp hver
    refine ⟨?_, ?_⟩
    · simp [consumeVerification, hv, hexp, hver]
    · simp [consumeVerification, hv, hexp, hver, mapDelete]

/-- Witness for C5: mark at time 0 and consume at time 1 (true, flag gone),
consume again at time 2 (false); plus one concrete instance of each of the
absent, present-but-expired, and valid cases. -/
theorem consumeVerification_spec_witness :
    ((consumeVerification
        (markAsVerified emptyVerificationStore 0 "+79991234567") 1 "+79991234567").1
        = true
      ∧ (consumeVerification
          (markAsVerified emptyVerificationStore 0 "+79991234567") 1 "+79991234567").2
            "+79991234567" = none
      ∧ (consumeVerification
          (consumeVerification
            (markAsVerified emptyVerificationStore 0 "+79991234567") 1
              "+79991234567").2 2 "+79991234567").1 = false)
    ∧ ((consumeVerification emptyVerificationStore 0 "+79991234567").1 = false
      ∧ (consumeVerification emptyVerificationStore 0 "+79991234567").2
          = emptyVerificationStore)
    ∧ ((consumeVerification
          (markAsVerified emptyVerificationStore 0 "+79991234567") 601
            "+79991234567").1 = false
      ∧ (consumeVerification
          (markAsVerified emptyVerificationStore 0 "+79991234567") 601
            "+79991234567").2 "+79991234567" = none)
    ∧ ((consumeVerification
          (markAsVerified emptyVerificationStore 0 "+79991234567") 600
            "+79991234567").1 = true
      ∧ (consumeVerification
          (markAsVerified emptyVerificationStore 0 "+79991234567") 600
            "+79991234567").2 "+79991234567" = none) :=
  ⟨consumeVerification_spec.1 emptyVerificationStore 0 1 2 "+79991234567" (by decide),
   consumeVerification_spec.2.1 emptyVerificationStore 0 "+79991234567" rfl,
   consumeVerification_spec.2.2.1 (markAsVerified emptyVerificationStore 0 "+79991234567")
     601 "+79991234567"
     { phone := "+79991234567", verified := true, verifiedAt := 0, expiresAt := 600 }
     (by decide) (Or.inl (by decide)),
   consumeVerification_spec.2.2.2 (markAsVerified emptyVerificationStore 0 "+79991234567")
     600 "+79991234567"
     { phone := "+79991234567", verified := true, verifiedAt := 0, expiresAt := 600 }
     (by decide) (by decide) rfl⟩

/-- C6: `IsVerified` never changes the verification store: it returns false
with the store untouched when the flag is absent or expired (the expired
record is not deleted), and true with the store untouched when the flag is
present, unexpired and verified; after `MarkAsVerified` two successive
reads both return true and a subsequent `ConsumeVerification` still
returns true. -/
theorem isVerified_spec :
    (∀ (s : VerificationStore) (now : Nat) (phone : String),
      s phone = none → isVerified s now phone = (false, s))
    ∧ (∀ (s : VerificationStore) (now : Nat) (phone : String) (v : OTPVerification),
      s phone = some v → now > v.expiresAt → isVerified s now phone = (false, s))
    ∧ (∀ (s : VerificationStore) (now : Nat) (phone : String) (v : OTPVerification),
      s phone = some v → ¬ now > v.expiresAt → v.verified = true →
      isVerified s now phone = (true, s))
    ∧ (∀ (s : VerificationStore) (now t1 t2 t3 : Nat) (phone : String),
      ¬ t1 > now + 600 → ¬ t2 > now + 600 → ¬ t3 > now + 600 →
      isVerified (markAsVerified s now phone) t1 phone
          = (true, markAsVerified s now phone)
      ∧ isVerified (markAsVerified s now phone) t2 phone
          = (true, markAsVerified s now phone)
      ∧ (consumeVerification (markAsVerified s now phone) t3 phone).1 = true) := by
  refine ⟨?_, ?_, ?_, ?_⟩
  · intro s now phone h
    simp [isVerified, h]
  · intro s now phone v hv hexp
    simp [isVerified, hv, hexp]
  · intro s now phone v hv hexp hver
    simp [isVerified, hv, hexp, hver]
  · intro s now t1 t2 t3 phone h1 h2 h3
    refine ⟨?_, ?_, ?_⟩
    · simp [isVerified, markAsVerified, mapInsert, h1]
    · simp [isVerified, markAsVerified, mapInsert, h2]
    · simp [consumeVerification, markAsVerified, mapInsert, h3]

/-- Witness for C6: concrete instances of the absent, expired and valid read
cases, and the mark / read twice / consume scenario at times 1, 2, 3. -/
theorem isVerified_spec_witness :
    isVerified emptyVerificationStore 5 "+79991234567" = (false, emptyVerificationStore)
    ∧ isVerified (markAsVerified emptyVerificationStore 0 "+79991234567") 601
        "+79991234567"
        = (false, markAsVerified emptyVerificationStore 0 "+79991234567")
    ∧ isVerified (markAsVerified emptyVerificationStore 0 "+79991234567") 600
        "+79991234567"
        = (true, markAsVerified emptyVerificationStore 0 "+79991234567")
    ∧ (isVerified (markAsVerified emptyVerificationStore 0 "+79991234567") 1
          "+79991234567"
          = (true, markAsVerified emptyVerificationStore 0 "+79991234567")
      ∧ isVerified (markAsVerified emptyVerificationStore 0 "+79991234567") 2
          "+79991234567"
          = (true, markAsVerified emptyVerificationStore 0 "+79991234567")
      ∧ (consumeVerification (markAsVerified emptyVerificationStore 0 "+79991234567")
          3 "+79991234567").1 = true) :=
  ⟨isVerified_spec.1 emptyVerificationStore 5 "+79991234567" rfl,
   isVerified_spec.2.1 (markAsVerified emptyVerificationStore 0 "+79991234567") 601
     "+79991234567"
     { phone := "+79991234567", verified := true, verifiedAt := 0, expiresAt := 600 }
     (by decide) (by decide),
   isVerified_spec.2.2.1 (markAsVerified emptyVerificationStore 0 "+79991234567") 600
     "+79991234567"
     { phone := "+79991234567", verified := true, verifiedAt := 0, expiresAt := 600 }
     (by decide) (by decide) rfl,
   isVerified_spec.2.2.2 emptyVerificationStore 0 1 2 3 "+79991234567"
     (by decide) (by decide) (by decide)⟩

/-- C7: generating twice for the same subject replaces the record entirely
(stored code is the second one, attempts reset to 0, expiry = second call
time + 5 minutes); verifying with the first code never succeeds (at any
time), while verifying with the second code before its expiry succeeds. -/
theorem generateOTP_overwrites (s : OTPStore) (t1 t2 now now2 : Nat)
    (phone c1 c2 : String) (hne : c1 ≠ c2) (hvalid : ¬ now2 > t2 + 300) :
    (generateOTP (generateOTP s t1 phone c1) t2 phone c2) phone
        = some { code := c2, expiresAt := t2 + 300, attempts := 0 }
    ∧ (verifyOTP (generateOTP (generateOTP s t1 phone c1) t2 phone c2)
        now phone c1).1 ≠ Except.ok ()
    ∧ (verifyOTP (generateOTP (generateOTP s t1 phone c1) t2 phone c2)
        now2 phone c2).1 = Except.ok () := by
  have hlook : (generateOTP (generateOTP s t1 phone c1) t2 phone c2) phone
      = some { code := c2, expiresAt := t2 + 300, attempts := 0 } := by
    simp [generateOTP, mapInsert]
  have h03 : ¬ ((0 : Int) ≥ 3) := by decide
  have hne' : c2 ≠ c1 := Ne.symm hne
  refine ⟨hlook, ?_, ?_⟩
  · by_cases hn : now > t2 + 300
    · simp [verifyOTP, hlook, hn]
    · simp [verifyOTP, hlook, hn, h03, hne']
  · simp [verifyOTP, hlook, hvalid, h03]

/-- Witness for C7: two generates at times 0 and 10; the first code then
fails to verify at time 20, the second succeeds at time 20. -/
theorem generateOTP_overwrites_witness :
    (generateOTP (generateOTP emptyOTPStore 0 "+79991234567" "111111") 10
        "+79991234567" "482913") "+79991234567"
        = some { code := "482913", expiresAt := 310, attempts := 0 }
    ∧ (verifyOTP (generateOTP (generateOTP emptyOTPStore 0 "+79991234567" "111111")
        10 "+79991234567" "482913") 20 "+79991234567" "111111").1 ≠ Except.ok ()
    ∧ (verifyOTP (generateOTP (generateOTP emptyOTPStore 0 "+79991234567" "111111")
        10 "+79991234567" "482913") 20 "+79991234567" "482913").1 = Except.ok () :=
  generateOTP_overwrites emptyOTPStore 0 10 20 20 "+79991234567" "111111" "482913"
    (by decide) (by decide)

/-- C8: `DeleteOTP` is unconditional and idempotent: it never touches other
subjects, deleting twice equals deleting once, and deleting an absent
subject leaves the whole store unchanged (and returns no error — the
operation is total). -/
theorem deleteOTP_spec (s : OTPStore) (phone : String) :
    (∀ q, q ≠ phone → deleteOTP s phone q = s q)
    ∧ deleteOTP (deleteOTP s phone) phone = deleteOTP s phone
    ∧ (s phone = none → deleteOTP s phone = s) := by
  refine ⟨?_, ?_, ?_⟩
  · intro q hq
    simp [deleteOTP, mapDelete, hq]
  · funext q
    by_cases hq : q = phone <;> simp [deleteOTP, mapDelete, hq]
  · intro h
    funext q
    by_cases hq : q = phone <;> simp [deleteOTP, mapDelete, hq, h]

/-- Witness for C8: deleting an absent subject from the empty store leaves
other subjects and the whole store unchanged, and is idempotent. -/
theorem deleteOTP_spec_witness :
    deleteOTP emptyOTPStore "+79991234567" "+70000000000"
        = emptyOTPStore "+70000000000"
    ∧ deleteOTP (deleteOTP emptyOTPStore "+79991234567") "+79991234567"
        = deleteOTP emptyOTPStore "+79991234567"
    ∧ deleteOTP emptyOTPStore "+79991234567" = emptyOTPStore :=
  ⟨(deleteOTP_spec emptyOTPStore "+79991234567").1 "+70000000000" (by decide),
   (deleteOTP_spec emptyOTPStore "+79991234567").2.1,
   (deleteOTP_spec emptyOTPStore "+79991234567").2.2 rfl⟩

/-- After the record for `phone` is gone, every further verify in a serialized
batch returns the not-found error and leaves the store unchanged. -/
theorem runVerifies_absent (s : OTPStore) (phone code : String) (ts : List Nat)
    (h : s phone = none) :
    runVerifies s phone code ts
      = (List.replicate ts.length (Except.error OtpError.notFound), s) := by
  induction ts with
  | nil => simp [runVerifies]
  | cons t rest ih => simp [runVerifies, verifyOTP, h, ih, List.replicate_succ]

/-- A serialized batch of mismatched verifies, all before expiry and within
the attempt budget, increments the attempts counter by exactly the number
of calls and retains the record with its code and expiry unchanged. -/
theorem runVerifies_mismatch_count (phone wrong : String) (ts : List Nat) :
    ∀ (s : OTPStore) (d : OTPData), s phone = some d → d.code ≠ wrong →
    (∀ u ∈ ts, ¬ u > d.expiresAt) → d.attempts + (ts.length : Int) ≤ 3 →
    (runVerifies s phone wrong ts).2 phone
      = some { code := d.code, expiresAt := d.expiresAt,
               attempts := d.attempts + (ts.length : Int) } := by
  induction ts with
  | nil =>
    intro s d hrec _ _ _
    simpa [runVerifies] using hrec
  | cons u us ih =>
    intro s d hrec hne hts hb
    have hexp : ¬ u > d.expiresAt := hts u (by simp)
    have hatt : ¬ d.attempts ≥ 3 := by
      simp only [List.length_cons] at hb
      push_cast at hb
      omega
    have hstep : verifyOTP s u phone wrong
        = (Except.error OtpError.mismatch,
           mapInsert s phone
             { code := d.code, expiresAt := d.expiresAt,
               attempts := d.attempts + 1 }) := by
      simp [verifyOTP, hrec, hexp, hatt, hne]
    have hrec2 : (mapInsert s phone
        { code := d.code, expiresAt := d.expiresAt,
          attempts := d.attempts + 1 }) phone
        = some { code := d.code, expiresAt := d.expiresAt,
                 attempts := d.attempts + 1 } := by
      simp [mapInsert]
    have hts2 : ∀ u ∈ us,
        ¬ u > (OTPData.mk d.code d.expiresAt (d.attempts + 1)).expiresAt :=
      fun v hv => hts v (by simp [hv])
    have hb2 : (OTPData.mk d.code d.expiresAt (d.attempts + 1)).attempts
        + (us.length : Int) ≤ 3 := by
      simp only [List.length_cons] at hb
      push_cast at hb ⊢
      omega
    have hrest := ih (mapInsert s phone
        { code := d.code, expiresAt := d.expiresAt, attempts := d.attempts + 1 })
      (OTPData.mk d.code d.expiresAt (d.attempts + 1)) hrec2 hne hts2 hb2
    calc (runVerifies s phone wrong (u :: us)).2 phone
        = (runVerifies (mapInsert s phone
            { code := d.code, expiresAt := d.expiresAt,
              attempts := d.attempts + 1 }) phone wrong us).2 phone := by
          simp [runVerifies, hstep]
      _ = some { code := d.code, expiresAt := d.expiresAt,
                 attempts := d.attempts + ((u :: us).length : Int) } := by
          rw [hrest]
          simp only [OTPData.mk.injEq, Option.some.injEq, List.length_cons, true_and]
          push_cast
          ring

/-- C9: under the serialization imposed by the store's write lock, a batch of
N ≥ 1 verifies with the correct code on one live, unexpired record yields
exactly one success (the first call) followed by N−1 not-found errors; and
a batch of mismatched verifies within the attempt budget loses no
attempt-counter update — the counter ends at its start plus the number of
calls. -/
theorem verifyOTP_linearized :
    (∀ (s : OTPStore) (phone : String) (d : OTPData) (t : Nat) (ts : List Nat),
      s phone = some d → ¬ t > d.expiresAt → d.attempts < 3 →
      (runVerifies s phone d.code (t :: ts)).1
        = Except.ok () :: List.replicate ts.length (Except.error OtpError.notFound))
    ∧ (∀ (s : OTPStore) (phone wrong : String) (d : OTPData) (ts : List Nat),
      s phone = some d → d.code ≠ wrong → (∀ u ∈ ts, ¬ u > d.expiresAt) →
      d.attempts + (ts.length : Int) ≤ 3 →
      (runVerifies s phone wrong ts).2 phone
        = some { code := d.code, expiresAt := d.expiresAt,
                 attempts := d.attempts + (ts.length : Int) }) := by
  constructor
  · intro s phone d t ts hrec hexp hatt
    have hatt2 : ¬ d.attempts ≥ 3 := not_le.mpr hatt
    have hstep : verifyOTP s t phone d.code = (Except.ok (), mapDelete s phone) := by
      simp [verifyOTP, hrec, hexp, hatt2]
    have habs : (mapDelete s phone) phone = none := by simp [mapDelete]
    simp [runVerifies, hstep, runVerifies_absent _ _ _ _ habs]
  · intro s phone wrong d ts hrec hne hts hb
    exact runVerifies_mismatch_count phone wrong ts s d hrec hne hts hb

/-- Witness for C9: three serialized verifies with the correct code give
ok, not-found, not-found; three mismatched verifies drive the counter
from 0 to exactly 3. -/
theorem verifyOTP_linearized_witness :
    (runVerifies
        (mapInsert emptyOTPStore "+79991234567"
          { code := "482913", expiresAt := 300, attempts := 0 })
        "+79991234567" "482913" [10, 20, 30]).1
      = Except.ok () :: List.replicate 2 (Except.error OtpError.notFound)
    ∧ (runVerifies
        (mapInsert emptyOTPStore "+79991234567"
          { code := "482913", expiresAt := 300, attempts := 0 })
        "+79991234567" "000000" [1, 2, 3]).2 "+79991234567"
      = some { code := "482913", expiresAt := 300, attempts := 0 + ((3 : Nat) : Int) } :=
  ⟨verifyOTP_linearized.1
      (mapInsert emptyOTPStore "+79991234567"
        { code := "482913", expiresAt := 300, attempts := 0 })
      "+79991234567" { code := "482913", expiresAt := 300, attempts := 0 }
      10 [20, 30] (by decide) (by decide) (by decide),
   verifyOTP_linearized.2
      (mapInsert emptyOTPStore "+79991234567"
        { code := "482913", expiresAt := 300, attempts := 0 })
      "+79991234567" "000000" { code := "482913", expiresAt := 300, attempts := 0 }
      [1, 2, 3] (by decide) (by decide) (by decide) (by decide)⟩

/-- `mapDelete` preserves the attempts-range invariant. -/
theorem attemptsInRange_mapDelete (s : OTPStore) (phone : String)
    (h : AttemptsInRange s) : AttemptsInRange (mapDelete s phone) := by
  intro p d hp
  by_cases hq : p = phone
  · simp [mapDelete, hq] at hp
  · simp [mapDelete, hq] at hp
    exact h p d hp

/-- Each public operation preserves the attempts-range invariant. -/
theorem applyOp_preserves_range (s : OTPStore) (op : OTPOp)
    (h : AttemptsInRange s) : AttemptsInRange (applyOp s op) := by
  cases op with
  | generate now phone code =>
    intro p d hp
    by_cases hq : p = phone
    · simp [applyOp, generateOTP, mapInsert, hq] at hp
      rw [← hp]
      refine ⟨?_, ?_⟩
      · show (0 : Int) ≤ 0
        omega
      · show (0 : Int) ≤ 3
        omega
    · simp [applyOp, generateOTP, mapInsert, hq] at hp
      exact h p d hp
  | verify now phone code =>
    intro p d hp
    simp only [applyOp, verifyOTP] at hp
    cases hrec : s phone with
    | none =>
      rw [hrec] at hp
      simp at hp
      exact h p d hp
    | some d0 =>
      rw [hrec] at hp
      by_cases hexp : now > d0.expiresAt
      · simp [hexp] at hp
        exact attemptsInRange_mapDelete s phone h p d hp
      · by_cases hatt : d0.attempts ≥ 3
        · simp [hexp, hatt] at hp
          exact attemptsInRange_mapDelete s phone h p d hp
        · by_cases hcode : d0.code = code
          · simp [hexp, hatt, hcode] at hp
            exact attemptsInRange_mapDelete s phone h p d hp
          · simp [hexp, hatt, hcode] at hp
            by_cases hq : p = phone
            · simp [mapInsert, hq] at hp
              obtain ⟨hd1, hd2⟩ := h phone d0 hrec
              rw [← hp]
              refine ⟨?_, ?_⟩
              · show (0 : Int) ≤ d0.attempts + 1
                omega
              · show d0.attempts + 1 ≤ 3
                omega
            · simp [mapInsert, hq] at hp
              exact h p d hp
  | delete phone =>
    intro p d hp
    simp only [applyOp, deleteOTP] at hp
    exact attemptsInRange_mapDelete s phone h p d hp

/-- Every sequence of public operations preserves the attempts-range
invariant. -/
theorem applyOps_preserves_range (ops : List OTPOp) :
    ∀ (s : OTPStore), AttemptsInRange s → AttemptsInRange (applyOps s ops) := by
  induction ops with
  | nil =>
    intro s h
    simpa [applyOps] using h
  | cons op rest ih =>
    intro s h
    have hstep := applyOp_preserves_range s op h
    simpa [applyOps] using ih (applyOp s op) hstep

/-- C10: in every store state reachable from the empty store by any sequence
of `GenerateOTP`, `VerifyOTP` and `DeleteOTP` calls, every stored record
has its attempts counter between 0 and 3: generate initializes it to 0 and
only the mismatch branch increments it, which is reachable only when
attempts < 3. -/
theorem otpStore_attempts_invariant (ops : List OTPOp) (p : String)
    (d : OTPData) (h : applyOps emptyOTPStore ops p = some d) :
    0 ≤ d.attempts ∧ d.attempts ≤ 3 := by
  have hempty : AttemptsInRange emptyOTPStore := by
    intro q e he
    simp [emptyOTPStore] at he
  exact applyOps_preserves_range ops emptyOTPStore hempty p d h

/-- Witness for C10: after a generate and one mismatched verify, the stored
counter is 1, within the bounds. -/
theorem otpStore_attempts_invariant_witness :
    (0 : Int) ≤ (1 : Int) ∧ (1 : Int) ≤ 3 :=
  otpStore_attempts_invariant
    [OTPOp.generate 10 "+79991234567" "482913",
     OTPOp.verify 20 "+79991234567" "000000"]
    "+79991234567" { code := "482913", expiresAt := 310, attempts := 1 }
    (by decide)

end Theorems
